import Mathlib

/-!
Shallow embedding of the task-manager backend (src/app.py).

The program is a Flask application over a MySQL store.  Each handler
acquires a store connection, runs parameterized SQL statements and
responds with JSON.  We embed:
  * the store state (the `users` and `tasks` tables plus the
    auto-increment counters and a creation-time counter),
  * JSON values as produced by `jsonify`,
  * each HTTP handler as a function from its parsed request, the
    connection availability, an injected store-execution fault and the
    store state to an outcome: the HTTP response or an uncaught
    `mysql.connector.Error`, the resulting store state, and whether a
    connection was acquired / closed on that path.

Connection failure (`get_db_connection()` returning `None`) is the
boolean `connOk = false`; a `mysql.connector.Error` raised by
`cursor.execute` (or the commit that follows it) is the boolean
`fault = true`.  A unique-constraint violation on `users.username` also
raises `mysql.connector.Error`, so `register`'s execute raises when
`fault` is set or the username is already present.
-/

namespace TaskManager

/-- A row of the `users` table: `users(id PK auto, username UNIQUE, password)`. -/
structure UserRow where
  id : Nat
  username : String
  password : String
deriving Repr, DecidableEq

/-- A row of the `tasks` table:
`tasks(id PK auto, title, status, user_id, created_at)`. -/
structure TaskRow where
  id : Nat
  title : String
  status : String
  user_id : Nat
  created_at : Nat
deriving Repr, DecidableEq

/-- The store state: both tables, the two auto-increment counters and a
monotone counter standing for the store clock that fills `created_at`. -/
structure DB where
  users : List UserRow
  tasks : List TaskRow
  nextUserId : Nat
  nextTaskId : Nat
  nextCreatedAt : Nat
deriving Repr, DecidableEq

/-- JSON values, as produced by `jsonify`: an object keeps its key order. -/
inductive JsonVal where
  | jstr (s : String)
  | jnum (n : Nat)
  | jobj (fields : List (String × JsonVal))
  | jarr (elems : List JsonVal)

/-- Whether a JSON value is an object having the given key. -/
def jsonHasKey : JsonVal → String → Bool
  | .jobj fields, k => fields.any (fun f => f.1 == k)
  | _, _ => false

/-- `jsonify({"error": msg})`. -/
def errBody (msg : String) : JsonVal := .jobj [("error", .jstr msg)]

/-- `jsonify({"message": msg})`. -/
def msgBody (msg : String) : JsonVal := .jobj [("message", .jstr msg)]

/-- A dictionary-cursor row of `SELECT * FROM tasks`, in schema column order. -/
def taskToJson (r : TaskRow) : JsonVal :=
  .jobj [("id", .jnum r.id), ("title", .jstr r.title), ("status", .jstr r.status),
         ("user_id", .jnum r.user_id), ("created_at", .jnum r.created_at)]

/-- What a handler call produces: an HTTP response, or the propagation of an
uncaught `mysql.connector.Error` out of the handler. -/
inductive HResult where
  | response (status : Nat) (body : JsonVal)
  | uncaught

/-- `true` exactly on the propagated-error outcome. -/
def HResult.isUncaught : HResult → Bool
  | .uncaught => true
  | _ => false

/-- One handler execution: its result, the store state it leaves behind, and
whether a connection was acquired and whether that connection was closed. -/
structure HOutcome where
  result : HResult
  db : DB
  connAcquired : Bool
  connClosed : Bool

/-- Parsed JSON body of `POST /register` and `POST /login`, with the
request's content-type flag (`request.is_json`). -/
structure AuthReq where
  isJson : Bool
  username : String
  password : String
deriving Repr, DecidableEq

/-- Parsed JSON body of `POST /tasks`. -/
structure TaskReq where
  isJson : Bool
  title : String
  user_id : Nat
deriving Repr, DecidableEq

/-- Parsed JSON body of `PUT /tasks/<task_id>`. -/
structure UpdateReq where
  isJson : Bool
  status : String
deriving Repr, DecidableEq

/-- Modelled from the spec: the store schema (absent from src/) declares
`users.username UNIQUE`, so `INSERT INTO users` hits a unique-constraint
violation exactly when the username is already present. -/
def usernameExists (db : DB) (u : String) : Bool :=
  db.users.any (fun r => r.username == u)

/-- Effect of `INSERT INTO users (username, password) VALUES (%s, %s)`
followed by `conn.commit()`, on the non-violating path. -/
def insertUser (db : DB) (u p : String) : DB :=
  { db with users := db.users ++ [⟨db.nextUserId, u, p⟩],
            nextUserId := db.nextUserId + 1 }

/-- `SELECT id, username FROM users WHERE username = %s AND password = %s`
followed by `fetchone()`: the first row matching both columns. -/
def selectUserByCred (db : DB) (u p : String) : Option UserRow :=
  db.users.find? (fun r => r.username == u && r.password == p)

/-- The descending `created_at` order used by the task listing. -/
def createdDesc (a b : TaskRow) : Prop := b.created_at ≤ a.created_at

instance : DecidableRel createdDesc := fun a b => Nat.decLe b.created_at a.created_at

instance : IsTotal TaskRow createdDesc :=
  ⟨fun a b => Nat.le_total b.created_at a.created_at⟩

instance : IsTrans TaskRow createdDesc :=
  ⟨fun _ _ _ h1 h2 => Nat.le_trans h2 h1⟩

/-- `SELECT * FROM tasks WHERE user_id = %s ORDER BY created_at DESC`
followed by `fetchall()`, the sort modelled as a stable sort by
descending `created_at`. -/
def selectTasksByUser (db : DB) (uid : Nat) : List TaskRow :=
  List.insertionSort createdDesc (db.tasks.filter (fun r => r.user_id == uid))

/-- Modelled from the spec: the store schema (absent from src/) gives
`tasks.status` the default `"pending"` and fills `created_at` at insertion,
so `INSERT INTO tasks (title, user_id)` plus `conn.commit()` appends a
`"pending"` row; the second component is `cursor.lastrowid`. -/
def insertTask (db : DB) (title : String) (uid : Nat) : DB × Nat :=
  ({ db with tasks := db.tasks ++ [⟨db.nextTaskId, title, "pending", uid, db.nextCreatedAt⟩],
             nextTaskId := db.nextTaskId + 1,
             nextCreatedAt := db.nextCreatedAt + 1 },
   db.nextTaskId)

/-- Effect of `UPDATE tasks SET status = %s WHERE id = %s` plus `conn.commit()`. -/
def updateTaskStatus (db : DB) (tid : Nat) (st : String) : DB :=
  { db with tasks := db.tasks.map (fun r => if r.id == tid then { r with status := st } else r) }

/-- Effect of `DELETE FROM tasks WHERE id = %s` plus `conn.commit()`. -/
def deleteTaskRows (db : DB) (tid : Nat) : DB :=
  { db with tasks := db.tasks.filter (fun r => r.id != tid) }

/-- `POST /register` (src/app.py lines 66-88).  Checks `request.is_json`,
acquires a connection, runs the insert inside `try/except
mysql.connector.Error` with `finally: cursor.close(); conn.close()`. -/
def register (req : AuthReq) (connOk fault : Bool) (db : DB) : HOutcome :=
  if req.isJson = false then
    ⟨.response 415 (errBody "Content-Type must be application/json"), db, false, false⟩
  else if connOk = false then
    ⟨.response 500 (errBody "Database connection failed."), db, false, false⟩
  else if fault || usernameExists db req.username then
    ⟨.response 400 (errBody "Username already exists"), db, true, true⟩
  else
    ⟨.response 201 (msgBody "User registered successfully"),
     insertUser db req.username req.password, true, true⟩

/-- `POST /login` (src/app.py lines 90-122).  Checks `request.is_json`,
acquires a connection, runs the credential lookup inside `try/except
mysql.connector.Error` with `finally: cursor.close(); conn.close()`. -/
def login (req : AuthReq) (connOk fault : Bool) (db : DB) : HOutcome :=
  if req.isJson = false then
    ⟨.response 415 (errBody "Content-Type must be application/json"), db, false, false⟩
  else if connOk = false then
    ⟨.response 500 (errBody "Database connection failed"), db, false, false⟩
  else if fault then
    ⟨.response 500 (errBody "Database query failed"), db, true, true⟩
  else
    match selectUserByCred db req.username req.password with
    | some u =>
        ⟨.response 200 (.jobj [("id", .jnum u.id), ("username", .jstr u.username)]),
         db, true, true⟩
    | none => ⟨.response 401 (errBody "Invalid username or password"), db, true, true⟩

/-- `GET /tasks/<int:user_id>` (src/app.py lines 126-137).  No try/except and
no finally: a `mysql.connector.Error` raised by `cursor.execute` propagates
out of the handler and skips `conn.close()`. -/
def get_tasks (user_id : Nat) (connOk fault : Bool) (db : DB) : HOutcome :=
  if connOk = false then
    ⟨.response 500 (errBody "Database connection failed"), db, false, false⟩
  else if fault then
    ⟨.uncaught, db, true, false⟩
  else
    ⟨.response 200 (.jarr ((selectTasksByUser db user_id).map taskToJson)), db, true, true⟩

/-- `POST /tasks` (src/app.py lines 139-159).  Checks `request.is_json`; the
insert runs with no try/except and no finally, so a raised
`mysql.connector.Error` propagates and skips `conn.close()`. -/
def add_task (req : TaskReq) (connOk fault : Bool) (db : DB) : HOutcome :=
  if req.isJson = false then
    ⟨.response 415 (errBody "Content-Type must be application/json"), db, false, false⟩
  else if connOk = false then
    ⟨.response 500 (errBody "Database connection failed"), db, false, false⟩
  else if fault then
    ⟨.uncaught, db, true, false⟩
  else
    ⟨.response 201 (.jobj [("id", .jnum (insertTask db req.title req.user_id).2),
                           ("title", .jstr req.title), ("status", .jstr "pending")]),
     (insertTask db req.title req.user_id).1, true, true⟩

/-- `PUT /tasks/<int:task_id>` (src/app.py lines 161-178).  Checks
`request.is_json`; the update runs with no try/except and no finally, so a
raised `mysql.connector.Error` propagates and skips `conn.close()`. -/
def update_task (task_id : Nat) (req : UpdateReq) (connOk fault : Bool) (db : DB) : HOutcome :=
  if req.isJson = false then
    ⟨.response 415 (errBody "Content-Type must be application/json"), db, false, false⟩
  else if connOk = false then
    ⟨.response 500 (errBody "Database connection failed"), db, false, false⟩
  else if fault then
    ⟨.uncaught, db, true, false⟩
  else
    ⟨.response 200 (msgBody "Updated"), updateTaskStatus db task_id req.status, true, true⟩

/-- `DELETE /tasks/<int:task_id>` (src/app.py lines 180-191).  The handler
never reads `request.is_json` — the request's content-type flag is passed in
and ignored, as in the source.  The delete runs with no try/except and no
finally, so a raised `mysql.connector.Error` propagates and skips
`conn.close()`. -/
def delete_task (task_id : Nat) (_reqIsJson : Bool) (connOk fault : Bool) (db : DB) : HOutcome :=
  if connOk = false then
    ⟨.response 500 (errBody "Database connection failed"), db, false, false⟩
  else if fault then
    ⟨.uncaught, db, true, false⟩
  else
    ⟨.response 200 (msgBody "Deleted"), deleteTaskRows db task_id, true, true⟩

/-! ### Claim C2 — non-JSON write requests -/

/-- C2 counterexample: `DELETE /tasks/1` on a request whose body is not JSON
does not return 415 — it returns 200 "Deleted" and deletes the row, because
`delete_task` never inspects `request.is_json`. -/
theorem c2_delete_ignores_content_type :
    (delete_task 1 false true false ⟨[], [⟨1, "t", "pending", 1, 0⟩], 1, 2, 1⟩).result
      = .response 200 (msgBody "Deleted") ∧
    (delete_task 1 false true false ⟨[], [⟨1, "t", "pending", 1, 0⟩], 1, 2, 1⟩).db.tasks
      = [] :=
  ⟨rfl, rfl⟩

/-- C2 (amended): POST /register, POST /login, POST /tasks and
PUT /tasks/{task_id} each answer a non-JSON request with 415 and leave the
store unchanged; DELETE /tasks/{task_id} ignores the request's content type
entirely, behaving identically on JSON and non-JSON requests. -/
theorem c2_non_json_writes_rejected (db : DB) (u p t st : String) (uid tid : Nat)
    (c f j : Bool) :
    (register ⟨false, u, p⟩ c f db).result
      = .response 415 (errBody "Content-Type must be application/json") ∧
    (register ⟨false, u, p⟩ c f db).db = db ∧
    (login ⟨false, u, p⟩ c f db).result
      = .response 415 (errBody "Content-Type must be application/json") ∧
    (login ⟨false, u, p⟩ c f db).db = db ∧
    (add_task ⟨false, t, uid⟩ c f db).result
      = .response 415 (errBody "Content-Type must be application/json") ∧
    (add_task ⟨false, t, uid⟩ c f db).db = db ∧
    (update_task tid ⟨false, st⟩ c f db).result
      = .response 415 (errBody "Content-Type must be application/json") ∧
    (update_task tid ⟨false, st⟩ c f db).db = db ∧
    delete_task tid j c f db = delete_task tid true c f db :=
  ⟨rfl, rfl, rfl, rfl, rfl, rfl, rfl, rfl, rfl⟩

/-! ### Claim C3 — fault handling at the handler boundary -/

/-- C3 counterexample: a store-execution fault in `GET /tasks/1` is not
converted to an HTTP status — the `mysql.connector.Error` propagates out of
the handler uncaught. -/
theorem c3_get_tasks_fault_uncaught :
    (get_tasks 1 true true ⟨[], [], 1, 1, 0⟩).result = .uncaught :=
  rfl

/-- C3 (amended): only `register` and `login` catch store-execution faults
and convert them to an HTTP status; in `get_tasks`, `add_task`,
`update_task` and `delete_task` such a fault propagates out of the handler
unhandled. -/
theorem c3_fault_handling_per_handler (db : DB) (r : AuthReq) (t st : String)
    (uid tid : Nat) (j c f : Bool) :
    (register r c f db).result.isUncaught = false ∧
    (login r c f db).result.isUncaught = false ∧
    (get_tasks uid true true db).result = .uncaught ∧
    (add_task ⟨true, t, uid⟩ true true db).result = .uncaught ∧
    (update_task tid ⟨true, st⟩ true true db).result = .uncaught ∧
    (delete_task tid j true true db).result = .uncaught := by
  refine ⟨?_, ?_, rfl, rfl, rfl, rfl⟩
  · unfold register
    repeat' split
    all_goals rfl
  · unfold login
    repeat' split
    all_goals rfl

/-! ### Claim C4 — connection release on every exit path -/

/-- C4 counterexample: when a store-execution fault hits `GET /tasks/1`, the
acquired connection is never closed (`conn.close()` is skipped by the
propagating exception). -/
theorem c4_get_tasks_fault_leaks_conn :
    (get_tasks 1 true true ⟨[], [], 1, 1, 0⟩).connAcquired = true ∧
    (get_tasks 1 true true ⟨[], [], 1, 1, 0⟩).connClosed = false :=
  ⟨rfl, rfl⟩

/-- C4 (amended): `register` and `login` close the connection on every path
on which one was acquired (their `finally` blocks); `get_tasks`, `add_task`,
`update_task` and `delete_task` close it on fault-free paths but leak it
when a store-execution fault is raised. -/
theorem c4_conn_release_per_handler (db : DB) (r : AuthReq) (t st : String)
    (uid tid : Nat) (j c f : Bool) :
    (register r c f db).connClosed = (register r c f db).connAcquired ∧
    (login r c f db).connClosed = (login r c f db).connAcquired ∧
    (get_tasks uid true true db).connAcquired = true ∧
    (get_tasks uid true true db).connClosed = false ∧
    (get_tasks uid true false db).connClosed = true ∧
    (add_task ⟨true, t, uid⟩ true true db).connAcquired = true ∧
    (add_task ⟨true, t, uid⟩ true true db).connClosed = false ∧
    (add_task ⟨true, t, uid⟩ true false db).connClosed = true ∧
    (update_task tid ⟨true, st⟩ true true db).connAcquired = true ∧
    (update_task tid ⟨true, st⟩ true true db).connClosed = false ∧
    (update_task tid ⟨true, st⟩ true false db).connClosed = true ∧
    (delete_task tid j true true db).connAcquired = true ∧
    (delete_task tid j true true db).connClosed = false ∧
    (delete_task tid j true false db).connClosed = true := by
  refine ⟨?_, ?_, rfl, rfl, rfl, rfl, rfl, rfl, rfl, rfl, rfl, rfl, rfl, rfl⟩
  · unfold register
    repeat' split
    all_goals rfl
  · unfold login
    repeat' split
    all_goals rfl

/-! ### Claim C5 — register's error taxonomy -/

/-- C5 counterexample: with no user named "alice" registered (so the fault is
not a duplicate-username violation), a store-execution fault during
`register` yields 400 "Username already exists", not the 500 the claim
requires: `except mysql.connector.Error` catches every store error alike. -/
theorem c5_nonduplicate_fault_gives_400 :
    usernameExists ⟨[], [], 1, 1, 0⟩ "alice" = false ∧
    (register ⟨true, "alice", "pw"⟩ true true ⟨[], [], 1, 1, 0⟩).result
      = .response 400 (errBody "Username already exists") :=
  ⟨rfl, rfl⟩

/-- C5 (amended): in `register`, every store-execution fault during the
insert — duplicate-username violation or any other — results in
400 "Username already exists"; no store-execution fault produces a 500. -/
theorem c5_register_fault_always_400 (db : DB) (u p : String) (fault : Bool)
    (h : fault = true ∨ usernameExists db u = true) :
    (register ⟨true, u, p⟩ true fault db).result
      = .response 400 (errBody "Username already exists") := by
  rcases h with h | h <;> simp [register, h]

/-- Witness for C5's amended theorem at a concrete input. -/
theorem c5_register_fault_always_400_witness :
    (register ⟨true, "bob", "pw"⟩ true true ⟨[], [], 1, 1, 0⟩).result
      = .response 400 (errBody "Username already exists") :=
  c5_register_fault_always_400 ⟨[], [], 1, 1, 0⟩ "bob" "pw" true (Or.inl rfl)

/-! ### Claim C8 — add task -/

/-- C8: a JSON `POST /tasks` with the store reachable inserts a row whose
status is "pending", and responds 201 with body
`{id: newly assigned row id, title, status}`, a body with no
`created_at` key. -/
theorem c8_add_task_spec (db : DB) (title : String) (uid : Nat) :
    (add_task ⟨true, title, uid⟩ true false db).result
      = .response 201 (.jobj [("id", .jnum db.nextTaskId), ("title", .jstr title),
                              ("status", .jstr "pending")]) ∧
    (add_task ⟨true, title, uid⟩ true false db).db.tasks
      = db.tasks ++ [⟨db.nextTaskId, title, "pending", uid, db.nextCreatedAt⟩] ∧
    jsonHasKey (.jobj [("id", .jnum db.nextTaskId), ("title", .jstr title),
                       ("status", .jstr "pending")]) "created_at" = false := by
  refine ⟨rfl, rfl, ?_⟩
  simp [jsonHasKey]

/-! ### Claim C9 — update task status -/

/-- C9: a JSON `PUT /tasks/{task_id}` returns 200 "Updated", sets the status
of the row with that id while keeping its other fields and every other row
(and the users table) unchanged; when no row has that id the store is
entirely unchanged. -/
theorem c9_update_task_spec (db : DB) (tid : Nat) (st : String) :
    (update_task tid ⟨true, st⟩ true false db).result = .response 200 (msgBody "Updated") ∧
    (update_task tid ⟨true, st⟩ true false db).db.users = db.users ∧
    (update_task tid ⟨true, st⟩ true false db).db.tasks
      = db.tasks.map (fun r => if r.id == tid then { r with status := st } else r) ∧
    ((∀ r ∈ db.tasks, r.id ≠ tid) → (update_task tid ⟨true, st⟩ true false db).db = db) := by
  refine ⟨rfl, rfl, rfl, fun h => ?_⟩
  have hmap : db.tasks.map (fun r => if r.id == tid then { r with status := st } else r)
      = db.tasks := by
    conv_rhs => rw [← List.map_id db.tasks]
    exact List.map_congr_left (fun r hr => by simp [h r hr])
  show updateTaskStatus db tid st = db
  unfold updateTaskStatus
  rw [hmap]

/-! ### Claim C10 — delete task -/

/-- Filtering twice with the same predicate filters once. -/
theorem filterIdem {α : Type} (p : α → Bool) (l : List α) :
    (l.filter p).filter p = l.filter p := by
  induction l with
  | nil => rfl
  | cons x xs ih =>
    by_cases h : p x = true
    · simp [List.filter_cons, h, ih]
    · simp [List.filter_cons, h, ih]

/-- C10: `DELETE /tasks/{task_id}` returns 200 "Deleted"; afterwards no task
with that id appears in any `GET /tasks/{user_id}` listing; deleting the
same id again (with any content type) returns 200 "Deleted" and leaves the
store exactly as the first delete left it. -/
theorem c10_delete_task_spec (db : DB) (tid : Nat) (j1 j2 : Bool) :
    (delete_task tid j1 true false db).result = .response 200 (msgBody "Deleted") ∧
    (∀ uid r, r ∈ selectTasksByUser (delete_task tid j1 true false db).db uid →
       r.id ≠ tid) ∧
    (delete_task tid j2 true false (delete_task tid j1 true false db).db).result
      = .response 200 (msgBody "Deleted") ∧
    (delete_task tid j2 true false (delete_task tid j1 true false db).db).db
      = (delete_task tid j1 true false db).db := by
  refine ⟨rfl, fun uid r hr => ?_, rfl, ?_⟩
  · have hr' : r ∈ ((db.tasks.filter (fun q => q.id != tid)).filter
        (fun q => q.user_id == uid)) := by
      simpa [selectTasksByUser, deleteTaskRows, delete_task] using hr
    have : (r.id != tid) = true := (List.mem_filter.mp (List.mem_filter.mp hr').1).2
    simpa using this
  · show deleteTaskRows (deleteTaskRows db tid) tid = deleteTaskRows db tid
    unfold deleteTaskRows
    rw [filterIdem]

/-! ### Helper lemmas on the credential lookup -/

/-- When nothing in the first list satisfies the predicate, `find?` over the
concatenation looks in the second list. -/
theorem findAppendOfNone {α : Type} (p : α → Bool) {l₁ : List α} (l₂ : List α)
    (h : l₁.find? p = none) : (l₁ ++ l₂).find? p = l₂.find? p := by
  induction l₁ with
  | nil => rfl
  | cons x xs ih =>
    cases hpx : p x with
    | true =>
      rw [List.find?_cons_of_pos _ hpx] at h
      exact absurd h (by simp)
    | false =>
      rw [List.find?_cons_of_neg _ (by simp [hpx])] at h
      rw [List.cons_append, List.find?_cons_of_neg _ (by simp [hpx])]
      exact ih h

/-- When a username is absent from the users table, no credential pair with
that username matches any row. -/
theorem findCredEqNone {db : DB} {u : String} (h : usernameExists db u = false)
    (p : String) :
    db.users.find? (fun r => r.username == u && r.password == p) = none := by
  rw [List.find?_eq_none]
  intro r hr
  have := (List.any_eq_false.mp h) r hr
  simp only [Bool.and_eq_true, not_and]
  intro hu
  exact absurd hu this

/-- `find?` returns the element when it is the unique satisfier in the list. -/
theorem findFirstOfUnique {α : Type} (p : α → Bool) (a : α) :
    ∀ l : List α, a ∈ l → p a = true → (∀ x ∈ l, p x = true → x = a) →
      l.find? p = some a := by
  intro l
  induction l with
  | nil => intro ha; cases ha
  | cons x xs ih =>
    intro ha hpa huniq
    cases hpx : p x with
    | true =>
      rw [List.find?_cons_of_pos _ hpx]
      exact congrArg some (huniq x (List.mem_cons_self x xs) hpx)
    | false =>
      rw [List.find?_cons_of_neg _ (by simp [hpx])]
      have ha' : a ∈ xs := by
        rcases List.mem_cons.mp ha with h | h
        · subst h; rw [hpx] at hpa; cases hpa
        · exact h
      exact ih ha' hpa (fun y hy hpy => huniq y (List.mem_cons_of_mem _ hy) hpy)

/-- `login`'s behaviour when the credential lookup finds a row: 200 with the
row's id and username. -/
theorem login_found (db : DB) (u p : String) (r : UserRow)
    (h : selectUserByCred db u p = some r) :
    (login ⟨true, u, p⟩ true false db).result
      = .response 200 (.jobj [("id", .jnum r.id), ("username", .jstr r.username)]) := by
  simp [login, h]

/-- `login`'s behaviour when the credential lookup finds no row: 401. -/
theorem login_not_found (db : DB) (u p : String)
    (h : selectUserByCred db u p = none) :
    (login ⟨true, u, p⟩ true false db).result
      = .response 401 (errBody "Invalid username or password") := by
  simp [login, h]

/-! ### Claim C1 — register then login -/

/-- C1: for a username not already registered, a JSON register succeeds with
201, creates the user row (with id `db.nextUserId`), and a JSON login with
the same credentials succeeds with 200 returning exactly the id of the row
that register created. -/
theorem c1_register_then_login (db : DB) (u p : String)
    (hfresh : usernameExists db u = false) :
    (register ⟨true, u, p⟩ true false db).result
      = .response 201 (msgBody "User registered successfully") ∧
    (register ⟨true, u, p⟩ true false db).db.users
      = db.users ++ [⟨db.nextUserId, u, p⟩] ∧
    (login ⟨true, u, p⟩ true false (register ⟨true, u, p⟩ true false db).db).result
      = .response 200 (.jobj [("id", .jnum db.nextUserId), ("username", .jstr u)]) := by
  have hreg : register ⟨true, u, p⟩ true false db
      = ⟨.response 201 (msgBody "User registered successfully"), insertUser db u p,
         true, true⟩ := by
    simp [register, hfresh]
  have hsel : selectUserByCred (insertUser db u p) u p = some ⟨db.nextUserId, u, p⟩ := by
    unfold selectUserByCred insertUser
    rw [findAppendOfNone _ _ (findCredEqNone hfresh p)]
    simp [List.find?_cons_of_pos]
  refine ⟨by rw [hreg], by rw [hreg]; rfl, ?_⟩
  rw [hreg]
  exact login_found _ u p _ hsel

/-- Witness for C1 at a concrete input: registering "alice"/"pw1" on an
empty store, then logging in with the same pair, returns user id 1. -/
theorem c1_register_then_login_witness :
    (register ⟨true, "alice", "pw1"⟩ true false (⟨[], [], 1, 1, 0⟩ : DB)).result
      = .response 201 (msgBody "User registered successfully") ∧
    (register ⟨true, "alice", "pw1"⟩ true false (⟨[], [], 1, 1, 0⟩ : DB)).db.users
      = [] ++ [⟨1, "alice", "pw1"⟩] ∧
    (login ⟨true, "alice", "pw1"⟩ true false
        (register ⟨true, "alice", "pw1"⟩ true false (⟨[], [], 1, 1, 0⟩ : DB)).db).result
      = .response 200 (.jobj [("id", .jnum 1), ("username", .jstr "alice")]) :=
  c1_register_then_login ⟨[], [], 1, 1, 0⟩ "alice" "pw1" rfl

/-! ### Claim C6 — login credential check -/

/-- The schema invariant `users.username UNIQUE`: no two rows of the users
table share a username. -/
def usernamesNodup (db : DB) : Prop :=
  (db.users.map (fun r => r.username)).Nodup

/-- C6: against a users table with unique usernames, login with an existing
username but a password differing from that user's stored one returns 401
(never 200), and login with a matching pair returns 200 with exactly the
matched user's `{id, username}`. -/
theorem c6_login_credential_check (db : DB) (r : UserRow) (q : String)
    (hnd : usernamesNodup db) (hr : r ∈ db.users) (hq : q ≠ r.password) :
    (login ⟨true, r.username, q⟩ true false db).result
      = .response 401 (errBody "Invalid username or password") ∧
    (login ⟨true, r.username, r.password⟩ true false db).result
      = .response 200 (.jobj [("id", .jnum r.id), ("username", .jstr r.username)]) := by
  unfold usernamesNodup at hnd
  constructor
  · refine login_not_found db r.username q ?_
    rw [selectUserByCred, List.find?_eq_none]
    intro x hx
    simp only [Bool.and_eq_true, beq_iff_eq, not_and]
    intro hxu hxp
    have hxr : x = r := List.inj_on_of_nodup_map hnd hx hr hxu
    rw [hxr] at hxp
    exact hq hxp.symm
  · refine login_found db r.username r.password r ?_
    refine findFirstOfUnique _ r db.users hr (by simp) ?_
    intro x hx hpx
    simp only [Bool.and_eq_true, beq_iff_eq] at hpx
    exact List.inj_on_of_nodup_map hnd hx hr hpx.1

/-- Witness for C6 at a concrete input: one user "alice" with password
"pw1"; login with "wrong" gives 401, login with "pw1" gives 200 and id 1. -/
theorem c6_login_credential_check_witness :
    (login ⟨true, "alice", "wrong"⟩ true false
        (⟨[⟨1, "alice", "pw1"⟩], [], 2, 1, 0⟩ : DB)).result
      = .response 401 (errBody "Invalid username or password") ∧
    (login ⟨true, "alice", "pw1"⟩ true false
        (⟨[⟨1, "alice", "pw1"⟩], [], 2, 1, 0⟩ : DB)).result
      = .response 200 (.jobj [("id", .jnum 1), ("username", .jstr "alice")]) :=
  c6_login_credential_check ⟨[⟨1, "alice", "pw1"⟩], [], 2, 1, 0⟩ ⟨1, "alice", "pw1"⟩
    "wrong" (by unfold usernamesNodup; decide) (by decide) (by decide)

/-! ### Claim C7 — task listing -/

/-- C7: `GET /tasks/{user_id}` with the store reachable returns 200 with the
JSON array of exactly the task rows whose `user_id` matches (a permutation
of that filter of the table), ordered by `created_at` descending, leaving
the store unchanged; when no row matches — nonexistent user ids included —
the body is the empty array, still with status 200. -/
theorem c7_get_tasks_spec (db : DB) (uid : Nat) :
    (get_tasks uid true false db).result
      = .response 200 (.jarr ((selectTasksByUser db uid).map taskToJson)) ∧
    List.Perm (selectTasksByUser db uid)
      (db.tasks.filter (fun r => r.user_id == uid)) ∧
    List.Sorted createdDesc (selectTasksByUser db uid) ∧
    (get_tasks uid true false db).db = db ∧
    (db.tasks.filter (fun r => r.user_id == uid) = [] →
       (get_tasks uid true false db).result = .response 200 (.jarr [])) := by
  refine ⟨rfl, List.perm_insertionSort _ _, List.sorted_insertionSort _ _, rfl, fun h => ?_⟩
  simp [get_tasks, selectTasksByUser, h]

end TaskManager
